import Mathlib

/-!
Verification of the bible_clock firmware core (src/src/main.cpp): the
time-driven verse-resolution and display-refresh scheduler.  All machine
integers of the source (`unsigned long` on the 32-bit ESP32 target) are
modelled as `Nat` reduced modulo `2 ^ 32` exactly where the source's
unsigned arithmetic can wrap.  Arduino `String` values are modelled as
lists of characters.
-/

set_option autoImplicit false

namespace BibleClock

/-! ## 32-bit unsigned arithmetic -/

/-- `2 ^ 32`, the modulus of `unsigned long` on the ESP32 target. -/
def U32MOD : Nat := 4294967296

/-- `a - b` in C `unsigned long` arithmetic (wraps modulo `2 ^ 32`). -/
def sub32 (a b : Nat) : Nat := (a % U32MOD + (U32MOD - b % U32MOD)) % U32MOD

/-! ## Wall-clock snapshot (`struct tm` fields the program reads) -/

/-- The fields of `struct tm` that `main.cpp` consumes. -/
structure TmInfo where
  tm_hour : Nat
  tm_min : Nat
  tm_sec : Nat
deriving DecidableEq, Repr

/-! ## Scheduler timing (main.cpp `loop`, `millisUntilNextMinute`, `setup`) -/

/-- `const unsigned long displayUpdateIntervalMs = 60000UL` (main.cpp:34). -/
def displayUpdateIntervalMs : Nat := 60000

/-- The idle interval computed by `loop` (main.cpp:383):
`unsigned long remainingMs = displayUpdateIntervalMs - timeElapsedMs;`. -/
def loopRemainingMs (timeElapsedMs : Nat) : Nat :=
  sub32 displayUpdateIntervalMs timeElapsedMs

/-- `millisUntilNextMinute` (main.cpp:271-277): `(59 - tm_sec) * 1000 +
(1000 - millis() % 1000)`; `millisNow` stands for the `millis()` reading. -/
def millisUntilNextMinute (ti : TmInfo) (millisNow : Nat) : Nat :=
  (59 - ti.tm_sec) * 1000 + (1000 - millisNow % 1000)

/-- The wait performed by `setup` after its immediate render
(main.cpp:353-360): `initialDelay = millisUntilNextMinute(currentTime) -
timeElapsedMs;` then `delay(initialDelay + 1000UL)`, all in
`unsigned long` arithmetic. -/
def setupInitialWait (ti : TmInfo) (millisNow timeElapsedMs : Nat) : Nat :=
  (sub32 (millisUntilNextMinute ti millisNow) timeElapsedMs + 1000) % U32MOD

/-! ## Arduino strings -/

/-- Arduino `String`, modelled as its character list. -/
abbrev AString := List Char

/-- `String::indexOf(char)` (first occurrence, `-1` when absent). -/
def indexOf (s : AString) (c : Char) : Int :=
  match s.findIdx? (fun x => x = c) with
  | some i => (i : Int)
  | none => -1

/-- `String::substring(from, to)`: the characters at positions
`from .. to - 1`. -/
def substringA (s : AString) (from_ to_ : Nat) : AString :=
  (s.drop from_).take (to_ - from_)

/-- `extractBookName` (main.cpp:148-156): looks up the first `(` and the
first `)` of the reference; when both exist and the `)` comes after the
`(`, returns the text strictly between them wrapped in square brackets,
otherwise the empty string. -/
def extractBookName (reference : AString) : AString :=
  let start := indexOf reference '('
  let e := indexOf reference ')'
  if start ≠ -1 ∧ e ≠ -1 ∧ e > start then
    '[' :: substringA reference (start.toNat + 1) e.toNat ++ [']']
  else
    []

/-! ## Verse store (main.cpp `loadBibleVersesForHour`, `getCurrentVerseData`) -/

/-- One value of the hour-partition JSON object.  `reference?`/`text?` are
`none` when the corresponding key is absent (`entry.containsKey` fails). -/
structure JsonEntry where
  reference? : Option AString
  text? : Option AString
deriving DecidableEq, Repr

/-- A parsed hour partition: minute-key/entry pairs (`hourDoc` contents). -/
abbrev Partition := List (String × JsonEntry)

/-- The on-device filesystem, as successfully parsable files by name.  A
name mapped to nothing covers every load-failure cause of
`loadBibleVersesForHour`: SPIFFS mount failure, a missing or unreadable
file, and malformed JSON (`deserializeJson` error).  Per the external
parser's contract assumed by the source, a failed parse leaves no
document content (the document was cleared unconditionally beforehand,
main.cpp:103). -/
abbrev FS := List (String × Partition)

/-- `snprintf("%02d", n)` for `0 ≤ n ≤ 99`: two-digit zero-padded text. -/
def pad2 (n : Nat) : String :=
  if n < 10 then "0" ++ toString n else toString n

/-- The partition filename built at main.cpp:114:
`"/bible_verses_hour%02d.json"`. -/
def fileNameForHour (hour : Nat) : String :=
  "/bible_verses_hour" ++ pad2 hour ++ ".json"

/-- The verse store's mutable globals: `hourDoc` (main.cpp:39) and
`lastLoadedHour` (main.cpp:42, initially `-1`). -/
structure StoreState where
  hourDoc : Partition
  lastLoadedHour : Int
deriving DecidableEq, Repr

/-- The store state at boot: empty document, `lastLoadedHour = -1`. -/
def initialStoreState : StoreState := ⟨[], -1⟩

/-- `loadBibleVersesForHour` (main.cpp:101-137): clears `hourDoc`, then
attempts mount/open/parse of the hour's file; returns `false` on any
failure (document left cleared), `true` with the parsed partition
installed on success.  It never touches `lastLoadedHour`. -/
def loadBibleVersesForHour (fs : FS) (hour : Nat) (s : StoreState) :
    Bool × StoreState :=
  let s1 : StoreState := { s with hourDoc := [] }
  match fs.lookup (fileNameForHour hour) with
  | none => (false, s1)
  | some p => (true, { s1 with hourDoc := p })

/-- The hour normalization of main.cpp:165: `if (hour == 0) hour = 24;`. -/
def normalizeHour (h : Nat) : Nat := if h = 0 then 24 else h

/-- The result struct `VerseData` (main.cpp:142-145); `reference` holds
the bracketed book tag after `extractBookName`. -/
structure VerseData where
  reference : AString
  text : AString
deriving DecidableEq, Repr

/-- The default-constructed (empty) `VerseData`. -/
def emptyVerseData : VerseData := ⟨[], []⟩

/-- The lookup of main.cpp:176-194: index `hourDoc` by the two-digit
minute key; an absent entry, or an entry missing `reference` or `text`,
yields empty data. -/
def lookupMinute (doc : Partition) (minute : Nat) : VerseData :=
  match doc.lookup (pad2 minute) with
  | none => emptyVerseData
  | some entry =>
    match entry.reference?, entry.text? with
    | some r, some t => ⟨extractBookName r, t⟩
    | _, _ => emptyVerseData

/-- `getCurrentVerseData` (main.cpp:158-197), instrumented with the number
of `loadBibleVersesForHour` invocations it performs (`0` or `1`): the
hour is normalized, the partition is (re)loaded only when the normalized
hour differs from `lastLoadedHour`, a failed load returns empty data
without updating `lastLoadedHour`, and a successful load records the
hour before the minute lookup. -/
def getCurrentVerseData (fs : FS) (ti : TmInfo) (s : StoreState) :
    VerseData × StoreState × Nat :=
  let hour := normalizeHour ti.tm_hour
  if (hour : Int) ≠ s.lastLoadedHour then
    match loadBibleVersesForHour fs hour s with
    | (false, s1) => (emptyVerseData, s1, 1)
    | (true, s1) =>
      let s2 : StoreState := { s1 with lastLoadedHour := (hour : Int) }
      (lookupMinute s2.hourDoc ti.tm_min, s2, 1)
  else
    (lookupMinute s.hourDoc ti.tm_min, s, 0)

/-! ## Display renderer (main.cpp `displayContent`, `updateDisplay`) -/

/-- The body fonts selectable by `displayContent` (main.cpp:221-230). -/
inductive EpdFont
  | font24
  | font20
  | font16
  | font12
deriving DecidableEq, Repr

/-- The length-banded body-font policy of `displayContent`
(main.cpp:222-230). -/
def verseFontFor (verseText : AString) : EpdFont :=
  if verseText.length < 80 then .font24
  else if verseText.length < 120 then .font20
  else if verseText.length < 240 then .font16
  else .font12

/-- `snprintf("%02d:%02d", tm_hour, tm_min)` (main.cpp:255). -/
def formatTime (hour minute : Nat) : String :=
  pad2 hour ++ ":" ++ pad2 minute

/-- What a `displayContent` call commits to the panel. -/
structure DisplaySnapshot where
  timeText : String
  bookTag : AString
  verseText : AString
deriving DecidableEq, Repr

/-- `updateDisplay` (main.cpp:250-266): with no time available nothing
happens; otherwise the verse is resolved and `displayContent` (the
renderer plus the panel commit) is invoked only when reference or text
is non-empty.  The second component is the committed frame: `none` means
the renderer and the panel commit were not invoked. -/
def updateDisplay (fs : FS) (now? : Option TmInfo) (s : StoreState) :
    StoreState × Option DisplaySnapshot :=
  match now? with
  | none => (s, none)
  | some ti =>
    match getCurrentVerseData fs ti s with
    | (verse, s1, _) =>
      if ¬verse.reference.isEmpty ∨ ¬verse.text.isEmpty then
        (s1, some ⟨formatTime ti.tm_hour ti.tm_min, verse.reference, verse.text⟩)
      else
        (s1, none)

/-! ## Hourly time re-sync (main.cpp `checkTimeSync`) -/

/-- The time-sync global `lastSyncedHour` (main.cpp:35, initially `-1`). -/
structure SyncState where
  lastSyncedHour : Int
deriving DecidableEq, Repr

/-- `checkTimeSync` (main.cpp:282-302), instrumented with whether a
network time re-sync was triggered: with no time available nothing
happens; on an hour differing from `lastSyncedHour` the marker is
updated first, and `syncTime()` is invoked only when WiFi is connected. -/
def checkTimeSync (now? : Option Nat) (wifiConnected : Bool)
    (s : SyncState) : SyncState × Bool :=
  match now? with
  | none => (s, false)
  | some hour =>
    if (hour : Int) ≠ s.lastSyncedHour then
      let s1 : SyncState := ⟨(hour : Int)⟩
      if wifiConnected then (s1, true) else (s1, false)
    else
      (s, false)

/-! ## Spec-side tag policies (for claim C4) -/

/-- The claim's tag policy, for comparison with `extractBookName`: the
first parenthesized substring of the reference — the first `(` with a
`)` somewhere after it — yields the text between them in brackets;
otherwise the tag is empty. -/
def claimTag (r : AString) : AString :=
  match r.findIdx? (fun c => c = '(') with
  | none => []
  | some i =>
    let rest := r.drop (i + 1)
    if rest.any (fun c => c = ')') then
      '[' :: rest.takeWhile (fun c => c ≠ ')') ++ [']']
    else
      []

/-- The amended tag policy: the tag is non-empty exactly when the first
`)` of the whole reference occurs after the first `(`; in that case it
is the text strictly between the first `(` and the first `)` of the
whole string, in brackets. -/
def firstParenTag (r : AString) : AString :=
  match r.findIdx? (fun c => c = '('), r.findIdx? (fun c => c = ')') with
  | some i, some j =>
    if i < j then '[' :: ((r.drop (i + 1)).take (j - i - 1)) ++ [']'] else []
  | _, _ => []


/-- Claim C1: the loop's idle interval (main.cpp:383) is the nominal 60000ms
period minus the cycle's elapsed time, but in `unsigned long` arithmetic:
it is correct for elapsed times up to the nominal period, yet for an
elapsed time of 60001ms it wraps to 4294967295 (about 49.7 days) instead
of the 0 the specification requires. -/
theorem loopRemainingMs_wraps_past_nominal :
    loopRemainingMs 4200 = 55800 ∧ loopRemainingMs 60000 = 0 ∧
    loopRemainingMs 60001 = 4294967295 ∧ loopRemainingMs 60001 ≠ 0 := by
  decide

/-- Claim C8: the startup alignment wait (main.cpp:353-360).  When the
immediate render finishes before the computed minute boundary the second
render lands exactly at the boundary plus the 1000ms guard (fourth
conjunct, starting second 0, render cost 30000ms).  But at starting
second 59 a 5000ms render overruns the 1000ms remaining and the
`unsigned long` subtraction wraps: the wait becomes 4294964296ms rather
than anything bounded by remaining-plus-guard. -/
theorem setupInitialWait_wraps_when_render_overruns :
    millisUntilNextMinute ⟨12, 58, 59⟩ 0 = 1000 ∧
    setupInitialWait ⟨12, 58, 59⟩ 0 5000 = 4294964296 ∧
    setupInitialWait ⟨12, 58, 59⟩ 0 5000 ≠ 1000 + 1000 ∧
    30000 + setupInitialWait ⟨12, 58, 0⟩ 0 30000 =
      millisUntilNextMinute ⟨12, 58, 0⟩ 0 + 1000 := by
  decide

/-- Claim C6: resolving with hour 0 and resolving with hour 24 agree on
the partition filename and on the whole result (record, store state and
load count) for every filesystem, store state, minute and second. -/
theorem resolve_hour0_eq_hour24 (fs : FS) (s : StoreState) (m sec : Nat) :
    getCurrentVerseData fs ⟨0, m, sec⟩ s = getCurrentVerseData fs ⟨24, m, sec⟩ s ∧
    fileNameForHour (normalizeHour 0) = fileNameForHour (normalizeHour 24) :=
  ⟨rfl, rfl⟩

/-- Claim C7: the body-font policy of `displayContent` (main.cpp:222-230)
is a four-band length policy with boundaries 80/120/240, each exclusive
on the lower band. -/
theorem verseFontFor_bands (t : AString) :
    (t.length < 80 → verseFontFor t = .font24) ∧
    (80 ≤ t.length → t.length < 120 → verseFontFor t = .font20) ∧
    (120 ≤ t.length → t.length < 240 → verseFontFor t = .font16) ∧
    (240 ≤ t.length → verseFontFor t = .font12) := by
  refine ⟨fun h => ?_, fun h1 h2 => ?_, fun h1 h2 => ?_, fun h => ?_⟩
  · simp [verseFontFor, h]
  · have h3 : ¬ t.length < 80 := by omega
    simp [verseFontFor, h2, h3]
  · have h3 : ¬ t.length < 80 := by omega
    have h4 : ¬ t.length < 120 := by omega
    simp [verseFontFor, h2, h3, h4]
  · have h3 : ¬ t.length < 80 := by omega
    have h4 : ¬ t.length < 120 := by omega
    have h5 : ¬ t.length < 240 := by omega
    simp [verseFontFor, h3, h4, h5]

/-- Witness for C7 at the spec's sample lengths 50, 80, 200 and 300. -/
theorem verseFontFor_bands_witness :
    verseFontFor (List.replicate 50 'a') = .font24 ∧
    verseFontFor (List.replicate 80 'a') = .font20 ∧
    verseFontFor (List.replicate 200 'a') = .font16 ∧
    verseFontFor (List.replicate 300 'a') = .font12 :=
  ⟨(verseFontFor_bands _).1 (by decide),
   (verseFontFor_bands _).2.1 (by decide) (by decide),
   (verseFontFor_bands _).2.2.1 (by decide) (by decide),
   (verseFontFor_bands _).2.2.2 (by decide)⟩

/-- Claim C5 counterexample: with `lastSyncedHour = 3`, observing hour 4
while WiFi is disconnected triggers no re-sync (first conjunct), and the
marker was nevertheless advanced, so even with WiFi restored the same
observed hour triggers no re-sync either (second conjunct): the
transition to hour 4 triggers zero re-syncs, not exactly one. -/
theorem checkTimeSync_misses_transition_when_wifi_down :
    (checkTimeSync (some 4) false ⟨3⟩).2 = false ∧
    (checkTimeSync (some 4) true (checkTimeSync (some 4) false ⟨3⟩).1).2 = false := by
  decide

/-- Claim C5 (amended): a re-sync is triggered exactly when the observed
hour differs from `lastSyncedHour` and WiFi is connected at that moment;
the marker is updated to the observed hour on every call that sees a
time, so an immediately repeated observation of the same hour never
triggers a second re-sync, and no re-sync happens without a time
reading. -/
theorem checkTimeSync_once_per_hour_when_connected (now? : Option Nat)
    (w : Bool) (s : SyncState) :
    ((checkTimeSync now? w s).2 = true ↔
      (∃ h, now? = some h ∧ (h : Int) ≠ s.lastSyncedHour) ∧ w = true) ∧
    (∀ h, now? = some h →
      (checkTimeSync now? w s).1.lastSyncedHour = (h : Int)) ∧
    (∀ w2, (checkTimeSync now? w2 (checkTimeSync now? w s).1).2 = false) := by
  cases now? with
  | none => simp [checkTimeSync]
  | some h =>
    by_cases hh : (h : Int) = s.lastSyncedHour
    · cases w <;> simp [checkTimeSync, hh]
    · cases w <;> simp [checkTimeSync, hh]

/-- Witness for the amended C5 at hour 4, WiFi connected, marker 3. -/
theorem checkTimeSync_once_per_hour_when_connected_witness :
    (checkTimeSync (some 4) true ⟨3⟩).2 = true ∧
    (checkTimeSync (some 4) true ⟨3⟩).1.lastSyncedHour = (4 : Int) ∧
    (checkTimeSync (some 4) true (checkTimeSync (some 4) true ⟨3⟩).1).2 = false :=
  ⟨(checkTimeSync_once_per_hour_when_connected (some 4) true ⟨3⟩).1.mpr
      ⟨⟨4, rfl, by decide⟩, rfl⟩,
   (checkTimeSync_once_per_hour_when_connected (some 4) true ⟨3⟩).2.1 4 rfl,
   (checkTimeSync_once_per_hour_when_connected (some 4) true ⟨3⟩).2.2 true⟩

/-- Claim C4 counterexample: in the reference `")x(y)"` the first (and
only) parenthesized substring is `(y)`, so the claimed tag is `[y]`; but
`extractBookName` uses the first `)` of the whole string, which precedes
the first `(`, and returns the empty tag. -/
theorem extractBookName_misses_paren_after_close :
    extractBookName (")x(y)".toList) = [] ∧
    claimTag (")x(y)".toList) = "[y]".toList ∧
    extractBookName (")x(y)".toList) ≠ claimTag (")x(y)".toList) := by
  decide


/-- Claim C4 (amended): for every reference string, the tag produced by
`extractBookName` is exactly the `firstParenTag` policy — the text
strictly between the first `(` and the first `)` of the whole string,
bracketed, provided that first `)` occurs after that first `(`; in every
other case (no `(`, no `)`, or the first `)` preceding the first `(`)
the tag is empty. -/
theorem extractBookName_eq_firstParenTag (r : AString) :
    extractBookName r = firstParenTag r := by
  unfold extractBookName firstParenTag indexOf
  cases h1 : r.findIdx? (fun x => x = '(') with
  | none =>
    cases h2 : r.findIdx? (fun x => x = ')') with
    | none => simp
    | some j => simp
  | some i =>
    cases h2 : r.findIdx? (fun x => x = ')') with
    | none => simp
    | some j =>
      simp only []
      by_cases hij : i < j
      · have hc : ((i : Int) ≠ -1 ∧ (j : Int) ≠ -1 ∧ (j : Int) > (i : Int)) := by
          refine ⟨by omega, by omega, by exact_mod_cast hij⟩
        rw [if_pos hc, if_pos hij]
        have ht : ((i : Int).toNat + 1) = i + 1 := by omega
        have ht2 : (j : Int).toNat = j := by omega
        rw [ht, ht2]
        unfold substringA
        have : j - (i + 1) = j - i - 1 := by omega
        rw [this]
      · have hc : ¬ ((i : Int) ≠ -1 ∧ (j : Int) ≠ -1 ∧ (j : Int) > (i : Int)) := by
          push_neg
          intro _ _
          exact_mod_cast Nat.le_of_not_lt hij
        rw [if_neg hc, if_neg hij]


/-- Helper: from a store state whose resident document is empty, any
resolution yields either empty data or data read from a partition
freshly looked up (for the call's own normalized hour) in the
filesystem passed to that call — never stale records. -/
theorem resolve_empty_or_fresh (fs : FS) (ti : TmInfo) (s : StoreState)
    (hdoc : s.hourDoc = []) :
    (getCurrentVerseData fs ti s).1 = emptyVerseData ∨
    ∃ p, fs.lookup (fileNameForHour (normalizeHour ti.tm_hour)) = some p ∧
      (getCurrentVerseData fs ti s).1 = lookupMinute p ti.tm_min := by
  by_cases heq : (normalizeHour ti.tm_hour : Int) = s.lastLoadedHour
  · left
    simp [getCurrentVerseData, heq, hdoc, lookupMinute]
  · cases hl : fs.lookup (fileNameForHour (normalizeHour ti.tm_hour)) with
    | none =>
      left
      simp [getCurrentVerseData, loadBibleVersesForHour, heq, hl]
    | some p =>
      right
      exact ⟨p, rfl, by simp [getCurrentVerseData, loadBibleVersesForHour, heq, hl]⟩

/-- Claim C2. -/
theorem partitionLoad_allOrNothing (fs : FS) (ti : TmInfo) (s : StoreState)
    (hh : (normalizeHour ti.tm_hour : Int) ≠ s.lastLoadedHour)
    (hmiss : fs.lookup (fileNameForHour (normalizeHour ti.tm_hour)) = none) :
    (getCurrentVerseData fs ti s).1 = emptyVerseData ∧
    (getCurrentVerseData fs ti s).2.1.hourDoc = [] ∧
    ∀ fs2 ti2,
      (getCurrentVerseData fs2 ti2 (getCurrentVerseData fs ti s).2.1).1 = emptyVerseData ∨
      ∃ p, fs2.lookup (fileNameForHour (normalizeHour ti2.tm_hour)) = some p ∧
        (getCurrentVerseData fs2 ti2 (getCurrentVerseData fs ti s).2.1).1 =
          lookupMinute p ti2.tm_min := by
  have hdoc : (getCurrentVerseData fs ti s).2.1.hourDoc = [] := by
    simp [getCurrentVerseData, loadBibleVersesForHour, hh, hmiss]
  refine ⟨?_, hdoc, fun fs2 ti2 => resolve_empty_or_fresh fs2 ti2 _ hdoc⟩
  simp [getCurrentVerseData, loadBibleVersesForHour, hh, hmiss]


/-- Witness fixture: an hour-partition entry shaped like the dataset's
(minute key `"07"`, reference with a parenthesized book form). -/
def sampleEntry : JsonEntry :=
  ⟨some ("Ephesians 3:7 (Eph)".toList),
   some ("Of this gospel I was made a minister".toList)⟩

/-- Witness fixture: a partition holding `sampleEntry` at minute 7. -/
def samplePartition : Partition := [(pad2 7, sampleEntry)]

/-- Witness fixture: a filesystem holding `samplePartition` for hour 3. -/
def sampleFS : FS := [(fileNameForHour 3, samplePartition)]

/-- Witness for C2: resolving hour 5 on an empty filesystem from the boot
state. -/
theorem partitionLoad_allOrNothing_witness :
    ((normalizeHour 5 : Int) ≠ initialStoreState.lastLoadedHour) ∧
    ((getCurrentVerseData [] ⟨5, 30, 0⟩ initialStoreState).1 = emptyVerseData ∧
     (getCurrentVerseData [] ⟨5, 30, 0⟩ initialStoreState).2.1.hourDoc = [] ∧
     ∀ fs2 ti2,
       (getCurrentVerseData fs2 ti2
         (getCurrentVerseData [] ⟨5, 30, 0⟩ initialStoreState).2.1).1 = emptyVerseData ∨
       ∃ p, fs2.lookup (fileNameForHour (normalizeHour ti2.tm_hour)) = some p ∧
         (getCurrentVerseData fs2 ti2
           (getCurrentVerseData [] ⟨5, 30, 0⟩ initialStoreState).2.1).1 =
             lookupMinute p ti2.tm_min) :=
  ⟨by decide, partitionLoad_allOrNothing [] ⟨5, 30, 0⟩ initialStoreState (by decide) rfl⟩

/-- Claim C3 counterexample: with no readable partition for hour 5, two
consecutive resolutions for hour 5 from the boot state each perform a
storage load — the second call's load count is not 0. -/
theorem secondResolve_reloads_after_failed_load :
    (getCurrentVerseData [] ⟨5, 0, 0⟩
        (getCurrentVerseData [] ⟨5, 0, 0⟩ initialStoreState).2.1).2.2 ≠ 0 := by
  decide

/-- Claim C3 (amended): of two consecutive resolutions with the same
normalized hour, the second performs no storage load provided the first
left that hour recorded as loaded (its load succeeded, or the hour was
already cached); independently, a resolution whose normalized hour
differs from `lastLoadedHour` performs exactly one load, and one whose
hour equals it performs none. -/
theorem resolve_loadCount (fs fs2 : FS) (ti ti2 : TmInfo) (s : StoreState)
    (hsame : normalizeHour ti2.tm_hour = normalizeHour ti.tm_hour) :
    ((getCurrentVerseData fs ti s).2.1.lastLoadedHour = (normalizeHour ti.tm_hour : Int) →
      (getCurrentVerseData fs2 ti2 (getCurrentVerseData fs ti s).2.1).2.2 = 0) ∧
    ((normalizeHour ti.tm_hour : Int) ≠ s.lastLoadedHour →
      (getCurrentVerseData fs ti s).2.2 = 1) ∧
    ((normalizeHour ti.tm_hour : Int) = s.lastLoadedHour →
      (getCurrentVerseData fs ti s).2.2 = 0) := by
  refine ⟨fun hm => ?_, fun hh => ?_, fun heq => ?_⟩
  · generalize (getCurrentVerseData fs ti s).2.1 = s1 at hm ⊢
    simp [getCurrentVerseData, hsame, hm]
  · cases hl : fs.lookup (fileNameForHour (normalizeHour ti.tm_hour)) with
    | none => simp [getCurrentVerseData, loadBibleVersesForHour, hh, hl]
    | some p => simp [getCurrentVerseData, loadBibleVersesForHour, hh, hl]
  · simp [getCurrentVerseData, heq]

/-- Witness for the amended C3: hour 3 on `sampleFS` — the first
resolution from boot performs one load, the immediate second performs
none. -/
theorem resolve_loadCount_witness :
    (getCurrentVerseData sampleFS ⟨3, 7, 0⟩ initialStoreState).2.2 = 1 ∧
    (getCurrentVerseData sampleFS ⟨3, 7, 0⟩
        (getCurrentVerseData sampleFS ⟨3, 7, 0⟩ initialStoreState).2.1).2.2 = 0 :=
  ⟨(resolve_loadCount sampleFS sampleFS ⟨3, 7, 0⟩ ⟨3, 7, 0⟩ initialStoreState rfl).2.1
      (by decide),
   (resolve_loadCount sampleFS sampleFS ⟨3, 7, 0⟩ ⟨3, 7, 0⟩ initialStoreState rfl).1
      (by decide)⟩


/-- Claim C9: whenever verse resolution yields the empty record, the
renderer/panel commit is skipped (committed frame is `none`); in
particular on a failed partition load, on a minute key absent from a
freshly loaded partition, and on a minute key absent from the cached
partition. -/
theorem emptyVerse_skips_render (fs : FS) (ti : TmInfo) (s : StoreState) :
    ((getCurrentVerseData fs ti s).1 = emptyVerseData →
      (updateDisplay fs (some ti) s).2 = none) ∧
    ((normalizeHour ti.tm_hour : Int) ≠ s.lastLoadedHour →
      fs.lookup (fileNameForHour (normalizeHour ti.tm_hour)) = none →
      (updateDisplay fs (some ti) s).2 = none) ∧
    (∀ p, (normalizeHour ti.tm_hour : Int) ≠ s.lastLoadedHour →
      fs.lookup (fileNameForHour (normalizeHour ti.tm_hour)) = some p →
      p.lookup (pad2 ti.tm_min) = none →
      (updateDisplay fs (some ti) s).2 = none) ∧
    ((normalizeHour ti.tm_hour : Int) = s.lastLoadedHour →
      s.hourDoc.lookup (pad2 ti.tm_min) = none →
      (updateDisplay fs (some ti) s).2 = none) := by
  have key : (getCurrentVerseData fs ti s).1 = emptyVerseData →
      (updateDisplay fs (some ti) s).2 = none := by
    intro h
    rcases hg : getCurrentVerseData fs ti s with ⟨v, s1, n⟩
    rw [hg] at h
    replace h : v = emptyVerseData := h
    subst h
    simp [updateDisplay, hg, emptyVerseData]
  refine ⟨key, fun hh hl => key ?_, fun p hh hl hm => key ?_, fun heq hm => key ?_⟩
  · simp [getCurrentVerseData, loadBibleVersesForHour, hh, hl]
  · simp [getCurrentVerseData, loadBibleVersesForHour, hh, hl, lookupMinute, hm]
  · simp [getCurrentVerseData, heq, lookupMinute, hm]

/-- Witness for C9: hour 5 on an empty filesystem from the boot state —
no frame is committed. -/
theorem emptyVerse_skips_render_witness :
    (updateDisplay [] (some ⟨5, 30, 0⟩) initialStoreState).2 = none :=
  (emptyVerse_skips_render [] ⟨5, 30, 0⟩ initialStoreState).2.1 (by decide) rfl

/-- Claim C10: a failed load leaves `lastLoadedHour` untouched, so a
subsequent resolution with the same normalized hour performs a storage
load again, and as soon as one such load succeeds the record comes from
the freshly loaded partition and the hour is recorded as loaded. -/
theorem failedLoad_keeps_marker_and_retries (fs fs2 : FS) (ti ti2 : TmInfo)
    (s : StoreState) (p : Partition)
    (hh : (normalizeHour ti.tm_hour : Int) ≠ s.lastLoadedHour)
    (hmiss : fs.lookup (fileNameForHour (normalizeHour ti.tm_hour)) = none)
    (hsame : normalizeHour ti2.tm_hour = normalizeHour ti.tm_hour) :
    (getCurrentVerseData fs ti s).2.1.lastLoadedHour = s.lastLoadedHour ∧
    (getCurrentVerseData fs2 ti2 (getCurrentVerseData fs ti s).2.1).2.2 = 1 ∧
    (fs2.lookup (fileNameForHour (normalizeHour ti2.tm_hour)) = some p →
      (getCurrentVerseData fs2 ti2 (getCurrentVerseData fs ti s).2.1).1 =
        lookupMinute p ti2.tm_min ∧
      (getCurrentVerseData fs2 ti2 (getCurrentVerseData fs ti s).2.1).2.1.lastLoadedHour =
        (normalizeHour ti2.tm_hour : Int)) := by
  have hr : getCurrentVerseData fs ti s = (emptyVerseData, { s with hourDoc := [] }, 1) := by
    simp [getCurrentVerseData, loadBibleVersesForHour, hh, hmiss]
  rw [hr]
  have hh2 : (normalizeHour ti2.tm_hour : Int) ≠
      ({ s with hourDoc := [] } : StoreState).lastLoadedHour := by
    simpa [hsame] using hh
  refine ⟨rfl, ?_, fun hl => ?_⟩
  · cases hl2 : fs2.lookup (fileNameForHour (normalizeHour ti2.tm_hour)) with
    | none => simp [getCurrentVerseData, loadBibleVersesForHour, hh2, hl2]
    | some q => simp [getCurrentVerseData, loadBibleVersesForHour, hh2, hl2]
  · constructor <;> simp [getCurrentVerseData, loadBibleVersesForHour, hh2, hl]

/-- Witness for C10: hour 3 fails on an empty filesystem, the marker
stays `-1`, and the retry against `sampleFS` loads and resolves minute
7 from the fresh partition. -/
theorem failedLoad_keeps_marker_and_retries_witness :
    (getCurrentVerseData [] ⟨3, 7, 0⟩ initialStoreState).2.1.lastLoadedHour =
      initialStoreState.lastLoadedHour ∧
    (getCurrentVerseData sampleFS ⟨3, 7, 0⟩
        (getCurrentVerseData [] ⟨3, 7, 0⟩ initialStoreState).2.1).2.2 = 1 ∧
    ((getCurrentVerseData sampleFS ⟨3, 7, 0⟩
        (getCurrentVerseData [] ⟨3, 7, 0⟩ initialStoreState).2.1).1 =
      lookupMinute samplePartition 7 ∧
     (getCurrentVerseData sampleFS ⟨3, 7, 0⟩
        (getCurrentVerseData [] ⟨3, 7, 0⟩ initialStoreState).2.1).2.1.lastLoadedHour =
      (normalizeHour 3 : Int)) :=
  ⟨(failedLoad_keeps_marker_and_retries [] sampleFS ⟨3, 7, 0⟩ ⟨3, 7, 0⟩
      initialStoreState samplePartition (by decide) rfl rfl).1,
   (failedLoad_keeps_marker_and_retries [] sampleFS ⟨3, 7, 0⟩ ⟨3, 7, 0⟩
      initialStoreState samplePartition (by decide) rfl rfl).2.1,
   (failedLoad_keeps_marker_and_retries [] sampleFS ⟨3, 7, 0⟩ ⟨3, 7, 0⟩
      initialStoreState samplePartition (by decide) rfl rfl).2.2 (by decide)⟩

end BibleClock
